import Mathlib

/-
  Verification of the finbot-ml session/chat core.

  Shallow embedding of `src/chat.py` (the `/get_ticker_data`, `/chat` and
  `/cleanup_session` handlers together with the module-level `chat_store`
  and `ticker_store` dictionaries) and of `src/helpers.py`
  (`get_stock_data` and `format_analysis_for_chat`).

  Python JSON-ish values are modelled by the inductive `Val`; Python dicts
  are association lists that keep insertion order (dict updates keep the
  original key position, new keys are appended, as in CPython).  The
  external collaborators (yfinance and the LLM completion call) are
  parameters: the three component fetches of `get_stock_data` are given as
  `FetchComp` results, and the LLM is a function from the stored history
  and the composed prompt to either a reply or a raised error.
-/

set_option maxHeartbeats 1000000

/-- A Python/JSON-style value.  `null` is Python `None`; `num` models a
float by a rational (exact float behaviour is abstracted); `int` is a
Python int; `dict` is an insertion-ordered association list. -/
inductive Val where
  | null : Val
  | bool : Bool → Val
  | int : Int → Val
  | num : ℚ → Val
  | str : String → Val
  | list : List Val → Val
  | dict : List (String × Val) → Val

/-- One message in a session transcript (`InMemoryChatMessageHistory`
holds human and AI messages). -/
inductive Turn where
  | user : String → Turn
  | assistant : String → Turn
deriving DecidableEq

/-- One row of the pandas history frame: its date index rendered as
`%Y-%m-%d`, the Close price and the Volume. -/
structure HistRow where
  date : String
  close : ℚ
  volume : Int

/-- Result of one helper component (`get_stock_info` / `get_stock_history`
/ `get_balance_sheet`): either the `error: True` dict with its message, or
the `error: False` dict with its payload. -/
inductive FetchComp (α : Type) where
  | err : String → FetchComp α
  | ok : α → FetchComp α

abbrev Info := List (String × Val)

abbrev BalanceCols := List (String × List (String × Val))

/-- The upstream yfinance responses for one ticker query: the inputs that
`get_stock_data` assembles. -/
structure Upstream where
  info : FetchComp Info
  hist : FetchComp (List HistRow)
  bal : FetchComp BalanceCols

/-- The module-level mutable state of `src/chat.py`: `chat_store` maps a
session id to its transcript, `ticker_store` maps a session id to the
stored `{"tickers": ..., "data": ...}` dict. -/
structure Store where
  chat_store : List (String × List Turn)
  ticker_store : List (String × Val)

/-- The JSON reply of a handler: HTTP code, the `status.message` value,
the optional `debug_info` (`session_stored` flag when present, and the
listed session ids), and the `data` payload. -/
structure Response where
  code : Nat
  message : Val
  debug : Option (Option Bool × List String)
  data : Option Val

/-- The LLM collaborator: given the stored transcript and the composed
prompt, either replies or fails (raises). -/
abbrev LLM := List Turn → String → Except String String

/-! ### Association-list primitives (Python dict operations) -/

/-- Dict lookup: first binding of the key (Python dicts are duplicate
free, so this is dict access). -/
def alookup (k : String) : List (String × α) → Option α
  | [] => Option.none
  | (k₂, v) :: rest => if k₂ = k then some v else alookup k rest

/-- Dict assignment `d[k] = v`: updates in place (keeping the key
position) or appends a new binding, as CPython does. -/
def aset (k : String) (v : α) : List (String × α) → List (String × α)
  | [] => [(k, v)]
  | (k₂, v₂) :: rest => if k₂ = k then (k, v) :: rest else (k₂, v₂) :: aset k v rest

/-- Dict removal `d.pop(k, None)`. -/
def aerase (k : String) : List (String × α) → List (String × α)
  | [] => []
  | (k₂, v₂) :: rest => if k₂ = k then aerase k rest else (k₂, v₂) :: aerase k rest

/-- `list(d.keys())`. -/
def akeys (l : List (String × α)) : List String := l.map Prod.fst

/-- `d.get(k, default)` on a plain association list. -/
def dgetD (d : List (String × Val)) (k : String) (dflt : Val) : Val :=
  (alookup k d).getD dflt

theorem alookup_aset_self (k : String) (v : α) (l : List (String × α)) :
    alookup k (aset k v l) = some v := by
  induction l with
  | nil => simp [aset, alookup]
  | cons hd tl ih =>
    obtain ⟨k₂, v₂⟩ := hd
    by_cases h : k₂ = k
    · simp [aset, alookup, h]
    · simp [aset, alookup, h, ih]

theorem alookup_aset_ne (k k₂ : String) (v : α) (l : List (String × α))
    (h : k₂ ≠ k) : alookup k₂ (aset k v l) = alookup k₂ l := by
  induction l with
  | nil => simp [aset, alookup, Ne.symm h]
  | cons hd tl ih =>
    obtain ⟨k₃, v₃⟩ := hd
    by_cases h₃ : k₃ = k
    · subst h₃
      simp [aset, alookup, Ne.symm h]
    · simp only [aset, if_neg h₃, alookup]
      by_cases h₄ : k₃ = k₂ <;> simp [h₄, ih]

theorem alookup_aerase_self (k : String) (l : List (String × α)) :
    alookup k (aerase k l) = Option.none := by
  induction l with
  | nil => simp [aerase, alookup]
  | cons hd tl ih =>
    obtain ⟨k₂, v₂⟩ := hd
    by_cases h : k₂ = k
    · simp [aerase, h, ih]
    · simp [aerase, alookup, h, ih]

theorem alookup_aerase_ne (k k₂ : String) (l : List (String × α))
    (h : k₂ ≠ k) : alookup k₂ (aerase k l) = alookup k₂ l := by
  induction l with
  | nil => simp [aerase]
  | cons hd tl ih =>
    obtain ⟨k₃, v₃⟩ := hd
    by_cases h₃ : k₃ = k
    · subst h₃
      simp [aerase, alookup, Ne.symm h, ih]
    · simp only [aerase, if_neg h₃, alookup]
      by_cases h₄ : k₃ = k₂ <;> simp [h₄, ih]

theorem aerase_aerase (k : String) (l : List (String × α)) :
    aerase k (aerase k l) = aerase k l := by
  induction l with
  | nil => simp [aerase]
  | cons hd tl ih =>
    obtain ⟨k₂, v₂⟩ := hd
    by_cases h : k₂ = k
    · simp [aerase, h, ih]
    · simp [aerase, h, ih]

/-! ### Python semantics helpers -/

/-- Python truthiness of a value (`if not x`). -/
def truthy : Val → Bool
  | Val.null => false
  | Val.bool b => b
  | Val.int n => n ≠ 0
  | Val.num q => q ≠ 0
  | Val.str s => s ≠ ""
  | Val.list l => !l.isEmpty
  | Val.dict d => !d.isEmpty

/-- Truthiness of an optional request string (missing or empty is falsy). -/
def truthyOStr : Option String → Bool
  | Option.none => false
  | some s => s ≠ ""

/-- Truthiness of an optional request list (missing or empty is falsy). -/
def truthyOList : Option (List String) → Bool
  | Option.none => false
  | some l => !l.isEmpty

/-- Rendering of a rational that stands for a Python float.  Exact float
`repr` is abstracted: an integral value prints with a `.0` suffix, any
other value as numerator/denominator. -/
def ratStr (q : ℚ) : String :=
  if q.den = 1 then toString q.num ++ ".0" else toString q.num ++ "/" ++ toString q.den

mutual

/-- Python `repr` of a value (used for elements when a list is printed). -/
def pyRepr : Val → String
  | Val.null => "None"
  | Val.bool b => if b then "True" else "False"
  | Val.int n => toString n
  | Val.num q => ratStr q
  | Val.str s => "\x27" ++ s ++ "\x27"
  | Val.list vs => "[" ++ String.intercalate ", " (pyReprList vs) ++ "]"
  | Val.dict kvs => "\x7b" ++ String.intercalate ", " (pyReprDict kvs) ++ "\x7d"

def pyReprList : List Val → List String
  | [] => []
  | v :: vs => pyRepr v :: pyReprList vs

def pyReprDict : List (String × Val) → List String
  | [] => []
  | (k, v) :: kvs => ("\x27" ++ k ++ "\x27: " ++ pyRepr v) :: pyReprDict kvs

end

/-- Python `str` of a value, as an f-string interpolation applies it:
like `repr` except that a top-level string prints without quotes. -/
def pyStr : Val → String
  | Val.str s => s
  | v => pyRepr v

/-- Model of Python `round(x, 2)` on the rational model of floats (the
bankers-rounding tie case of the float original is abstracted to
round-half-up; no claim depends on ties). -/
def pyRound2 (q : ℚ) : ℚ := (round (q * 100) : ℤ) / 100

/-- Bracket access `v[k]`: `KeyError` when the key is missing,
`TypeError` when the value is not a dict (raised exception text is
abstracted). -/
def pyGet (v : Val) (k : String) : Except String Val :=
  match v with
  | Val.dict kvs =>
    match alookup k kvs with
    | some x => Except.ok x
    | Option.none => Except.error ("\x27" ++ k ++ "\x27")
  | _ => Except.error "value is not a dict"

/-- Method access `v.get(k, dflt)`: total on dicts, `AttributeError` on
anything else. -/
def pyGetD (v : Val) (k : String) (dflt : Val) : Except String Val :=
  match v with
  | Val.dict kvs => Except.ok ((alookup k kvs).getD dflt)
  | _ => Except.error "value has no attribute get"

/-- An `Except` value that did not raise. -/
def isOkResult : Except String String → Bool
  | Except.ok _ => true
  | Except.error _ => false

/-! ### helpers.py: get_stock_data -/

/-- `result.get("message", "")` of a component result dict. -/
def compMsg : FetchComp α → String
  | FetchComp.err m => m
  | FetchComp.ok _ => ""

/-- One entry of the `officers` list comprehension. -/
def officerVal (kvs : List (String × Val)) : Val :=
  Val.dict [
    ("name", dgetD kvs "name" (Val.str "")),
    ("age", dgetD kvs "age" Val.null),
    ("title", dgetD kvs "title" (Val.str "")),
    ("year_born", dgetD kvs "yearBorn" Val.null),
    ("exercised_value", dgetD kvs "exercisedValue" (Val.int 0)),
    ("unexercised_value", dgetD kvs "unexercisedValue" (Val.int 0))]

/-- The `for officer in ...` comprehension body: every element must be a
dict, otherwise `.get` on it raises. -/
def officersList : List Val → Option (List Val)
  | [] => some []
  | Val.dict kvs :: rest => (officersList rest).map (fun r => officerVal kvs :: r)
  | _ => Option.none

/-- Iterating `info.get("companyOfficers", [])`: anything but a list of
dicts raises inside the comprehension (iterating a non-list is abstracted
to the same failure). -/
def officersBuild : Val → Option (List Val)
  | Val.list vs => officersList vs
  | _ => Option.none

/-- `Val` of an optional rational (`None` when absent). -/
def optNum : Option ℚ → Val
  | Option.none => Val.null
  | some q => Val.num q

/-- `list(balance.values())[0] if balance else {}`. -/
def recentBalance : BalanceCols → List (String × Val)
  | [] => []
  | (_, rb) :: _ => rb

/-- The `"data"` dict literal of `get_stock_data`, in source order.  Two
keys of the Python literal are duplicated; CPython keeps the first
position with the last value, so `symbol` appears once, at the front,
with the value of the second occurrence `info.get("symbol", "")` (the
first occurrence `ticker` is dead), and `currency` appears once (both
occurrences carry the same expression). -/
def dataDict (info : Info) (bal : BalanceCols) (rows : List HistRow)
    (latest change pct : Option ℚ) (offs : List Val) : Val :=
  Val.dict [
    ("symbol", dgetD info "symbol" (Val.str "")),
    ("company_name", dgetD info "longName" (Val.str "")),
    ("current_price", optNum latest),
    ("currency", dgetD info "currency" (Val.str "")),
    ("daily_change", Val.dict [
      ("value", optNum (change.map pyRound2)),
      ("percentage", optNum (pct.map pyRound2))]),
    ("address", Val.dict [
      ("line1", dgetD info "address1" (Val.str "")),
      ("line2", dgetD info "address2" (Val.str "")),
      ("city", dgetD info "city" (Val.str "")),
      ("zip", dgetD info "zip" (Val.str "")),
      ("country", dgetD info "country" (Val.str ""))]),
    ("contact", Val.dict [
      ("phone", dgetD info "phone" (Val.str "")),
      ("fax", dgetD info "fax" (Val.str "")),
      ("website", dgetD info "website" (Val.str ""))]),
    ("company_info", Val.dict [
      ("industry", dgetD info "industry" (Val.str "")),
      ("sector", dgetD info "sector" (Val.str "")),
      ("long_business_summary", dgetD info "longBusinessSummary" (Val.str ""))]),
    ("officers", Val.list offs),
    ("ir_website", dgetD info "irWebsite" (Val.str "")),
    ("max_age", dgetD info "maxAge" (Val.int 0)),
    ("price_hint", dgetD info "priceHint" (Val.int 0)),
    ("previous_close", dgetD info "previousClose" (Val.int 0)),
    ("open", dgetD info "open" (Val.int 0)),
    ("day_low", dgetD info "dayLow" (Val.int 0)),
    ("day_high", dgetD info "dayHigh" (Val.int 0)),
    ("regular_market_previous_close", dgetD info "regularMarketPreviousClose" (Val.int 0)),
    ("regular_market_open", dgetD info "regularMarketOpen" (Val.int 0)),
    ("regular_market_day_low", dgetD info "regularMarketDayLow" (Val.int 0)),
    ("regular_market_day_high", dgetD info "regularMarketDayHigh" (Val.int 0)),
    ("dividend_rate", dgetD info "dividendRate" (Val.int 0)),
    ("dividend_yield", dgetD info "dividendYield" (Val.int 0)),
    ("ex_dividend_date", dgetD info "exDividendDate" (Val.int 0)),
    ("payout_ratio", dgetD info "payoutRatio" (Val.int 0)),
    ("five_year_avg_dividend_yield", dgetD info "fiveYearAvgDividendYield" (Val.int 0)),
    ("beta", dgetD info "beta" (Val.int 0)),
    ("trailing_pe", dgetD info "trailingPE" (Val.int 0)),
    ("forward_pe", dgetD info "forwardPE" (Val.int 0)),
    ("volume", dgetD info "volume" (Val.int 0)),
    ("regular_market_volume", dgetD info "regularMarketVolume" (Val.int 0)),
    ("average_volume", dgetD info "averageVolume" (Val.int 0)),
    ("average_volume_10days", dgetD info "averageVolume10days" (Val.int 0)),
    ("average_daily_volume_10day", dgetD info "averageDailyVolume10Day" (Val.int 0)),
    ("bid", dgetD info "bid" (Val.int 0)),
    ("ask", dgetD info "ask" (Val.int 0)),
    ("market_cap", dgetD info "marketCap" (Val.int 0)),
    ("fifty_two_week_low", dgetD info "fiftyTwoWeekLow" (Val.int 0)),
    ("fifty_two_week_high", dgetD info "fiftyTwoWeekHigh" (Val.int 0)),
    ("price_to_sales_trailing_12_months", dgetD info "priceToSalesTrailing12Months" (Val.int 0)),
    ("fifty_day_average", dgetD info "fiftyDayAverage" (Val.int 0)),
    ("two_hundred_day_average", dgetD info "twoHundredDayAverage" (Val.int 0)),
    ("trailing_annual_dividend_rate", dgetD info "trailingAnnualDividendRate" (Val.int 0)),
    ("trailing_annual_dividend_yield", dgetD info "trailingAnnualDividendYield" (Val.int 0)),
    ("enterprise_value", dgetD info "enterpriseValue" (Val.int 0)),
    ("profit_margins", dgetD info "profitMargins" (Val.int 0)),
    ("float_shares", dgetD info "floatShares" (Val.int 0)),
    ("shares_outstanding", dgetD info "sharesOutstanding" (Val.int 0)),
    ("held_percent_insiders", dgetD info "heldPercentInsiders" (Val.int 0)),
    ("held_percent_institutions", dgetD info "heldPercentInstitutions" (Val.int 0)),
    ("implied_shares_outstanding", dgetD info "impliedSharesOutstanding" (Val.int 0)),
    ("book_value", dgetD info "bookValue" (Val.int 0)),
    ("price_to_book", dgetD info "priceToBook" (Val.int 0)),
    ("last_fiscal_year_end", dgetD info "lastFiscalYearEnd" (Val.int 0)),
    ("next_fiscal_year_end", dgetD info "nextFiscalYearEnd" (Val.int 0)),
    ("most_recent_quarter", dgetD info "mostRecentQuarter" (Val.int 0)),
    ("earnings_quarterly_growth", dgetD info "earningsQuarterlyGrowth" (Val.int 0)),
    ("net_income_to_common", dgetD info "netIncomeToCommon" (Val.int 0)),
    ("trailing_eps", dgetD info "trailingEps" (Val.int 0)),
    ("forward_eps", dgetD info "forwardEps" (Val.int 0)),
    ("last_split_factor", dgetD info "lastSplitFactor" (Val.str "")),
    ("last_split_date", dgetD info "lastSplitDate" (Val.int 0)),
    ("enterprise_to_revenue", dgetD info "enterpriseToRevenue" (Val.int 0)),
    ("52_week_change", dgetD info "52WeekChange" (Val.int 0)),
    ("sand_p_52_week_change", dgetD info "SandP52WeekChange" (Val.int 0)),
    ("lastDividendValue", dgetD info "lastDividendValue" (Val.int 0)),
    ("lastDividendDate", dgetD info "lastDividendDate" (Val.int 0)),
    ("exchange", dgetD info "exchange" (Val.str "")),
    ("quoteType", dgetD info "quoteType" (Val.str "")),
    ("underlyingSymbol", dgetD info "underlyingSymbol" (Val.str "")),
    ("shortName", dgetD info "shortName" (Val.str "")),
    ("longName", dgetD info "longName" (Val.str "")),
    ("firstTradeDateEpochUtc", dgetD info "firstTradeDateEpochUtc" (Val.int 0)),
    ("timeZoneFullName", dgetD info "timeZoneFullName" (Val.str "")),
    ("timeZoneShortName", dgetD info "timeZoneShortName" (Val.str "")),
    ("uuid", dgetD info "uuid" (Val.str "")),
    ("messageBoardId", dgetD info "messageBoardId" (Val.str "")),
    ("gmtOffSetMilliseconds", dgetD info "gmtOffSetMilliseconds" (Val.int 0)),
    ("currentPrice", dgetD info "currentPrice" (Val.int 0)),
    ("targetHighPrice", dgetD info "targetHighPrice" (Val.int 0)),
    ("targetLowPrice", dgetD info "targetLowPrice" (Val.int 0)),
    ("targetMeanPrice", dgetD info "targetMeanPrice" (Val.int 0)),
    ("targetMedianPrice", dgetD info "targetMedianPrice" (Val.int 0)),
    ("recommendationMean", dgetD info "recommendationMean" (Val.int 0)),
    ("recommendationKey", dgetD info "recommendationKey" (Val.str "")),
    ("numberOfAnalystOpinions", dgetD info "numberOfAnalystOpinions" (Val.int 0)),
    ("totalCash", dgetD info "totalCash" (Val.int 0)),
    ("totalCashPerShare", dgetD info "totalCashPerShare" (Val.int 0)),
    ("totalDebt", dgetD info "totalDebt" (Val.int 0)),
    ("totalRevenue", dgetD info "totalRevenue" (Val.int 0)),
    ("revenuePerShare", dgetD info "revenuePerShare" (Val.int 0)),
    ("returnOnAssets", dgetD info "returnOnAssets" (Val.int 0)),
    ("returnOnEquity", dgetD info "returnOnEquity" (Val.int 0)),
    ("operatingCashflow", dgetD info "operatingCashflow" (Val.int 0)),
    ("earningsGrowth", dgetD info "earningsGrowth" (Val.int 0)),
    ("revenueGrowth", dgetD info "revenueGrowth" (Val.int 0)),
    ("operatingMargins", dgetD info "operatingMargins" (Val.int 0)),
    ("financialCurrency", dgetD info "financialCurrency" (Val.str "")),
    ("trailingPegRatio", dgetD info "trailingPegRatio" (Val.int 0)),
    ("market_metrics", Val.dict [
      ("market_cap", dgetD info "marketCap" Val.null),
      ("volume", dgetD info "volume" Val.null),
      ("pe_ratio", dgetD info "trailingPE" Val.null),
      ("forward_pe", dgetD info "forwardPE" Val.null),
      ("price_to_book", dgetD info "priceToBook" Val.null),
      ("dividend_yield", dgetD info "dividendYield" Val.null)]),
    ("52_week", Val.dict [
      ("high", dgetD info "fiftyTwoWeekHigh" Val.null),
      ("low", dgetD info "fiftyTwoWeekLow" Val.null)]),
    ("balance_sheet", Val.dict [
      ("total_assets", dgetD (recentBalance bal) "Total Assets" Val.null),
      ("total_liabilities", dgetD (recentBalance bal) "Total Liabilities Net Minority Interest" Val.null),
      ("total_equity", dgetD (recentBalance bal) "Total Equity Gross Minority Interest" Val.null),
      ("cash_and_equivalents", dgetD (recentBalance bal) "Cash And Cash Equivalents" Val.null)]),
    ("historical_data", Val.dict [
      ("dates", Val.list (rows.map (fun r => Val.str r.date))),
      ("prices", Val.list (rows.map (fun r => Val.num (pyRound2 r.close)))),
      ("volumes", Val.list (rows.map (fun r => Val.int r.volume)))])]

/-- The `except` result of the outer `try` of `get_stock_data`. -/
def analyzeError (ticker msg : String) : Val :=
  Val.dict [
    ("error", Val.bool true),
    ("message", Val.str ("Error analyzing " ++ ticker ++ ": " ++ msg)),
    ("ticker", Val.str ticker)]

/-- Builds the final result dict once the price metrics are known: the
`officers` comprehension runs while the dict literal is evaluated, so a
bad `companyOfficers` value still raises into the outer `try`. -/
def analyzeBuild (ticker : String) (info : Info) (rows : List HistRow)
    (bal : BalanceCols) (latest change pct : Option ℚ) : Val :=
  match officersBuild (dgetD info "companyOfficers" (Val.list [])) with
  | Option.none => analyzeError ticker "officers are not iterable dicts"
  | some offs =>
    Val.dict [
      ("error", Val.bool false),
      ("data", dataDict info bal rows latest change pct offs)]

/-- The success branch after the three components were unwrapped: the
price metrics come from the last two Close values (a one-row frame makes
`iloc[-2]` raise, caught by the outer `try`; an empty frame leaves all
three metrics `None`). -/
def analyzeData (ticker : String) (info : Info) (rows : List HistRow)
    (bal : BalanceCols) : Val :=
  match rows.reverse with
  | [] => analyzeBuild ticker info rows bal Option.none Option.none Option.none
  | [_] => analyzeError ticker "index -2 is out of bounds for axis 0 with size 1"
  | a :: b :: _ =>
    analyzeBuild ticker info rows bal (some a.close) (some (a.close - b.close))
      (some ((a.close - b.close) / b.close * 100))

/-- `get_stock_data(ticker)` of `src/helpers.py`, with the three component
results as parameters (they wrap the external yfinance calls). -/
def get_stock_data (ticker : String) (info_result : FetchComp Info)
    (history_result : FetchComp (List HistRow))
    (balance_result : FetchComp BalanceCols) : Val :=
  match info_result, history_result, balance_result with
  | FetchComp.ok info, FetchComp.ok rows, FetchComp.ok bal =>
    analyzeData ticker info rows bal
  | ir, hr, br =>
    Val.dict [
      ("error", Val.bool true),
      ("message", Val.str "Error fetching some data components"),
      ("details", Val.dict [
        ("info", Val.str (compMsg ir)),
        ("history", Val.str (compMsg hr)),
        ("balance", Val.str (compMsg br))])]

/-! ### helpers.py: format_analysis_for_chat -/

/-- `format_analysis_for_chat(stock_data)` of `src/helpers.py`.  Dict
accesses use brackets, so a malformed input raises (`Except.error`); the
f-string template is reproduced with Python `str` applied to every
interpolated value. -/
def format_analysis_for_chat (stock_data : Val) : Except String String := do
  let errv ← pyGetD stock_data "error" (Val.bool true)
  if truthy errv then
    let m ← pyGetD stock_data "message" (Val.str "Unknown error occurred")
    return "Error: " ++ pyStr m
  else
    let data ← pyGet stock_data "data"
    let symbol ← pyGet data "symbol"
    let companyName ← pyGet data "company_name"
    let currentPrice ← pyGet data "current_price"
    let currency ← pyGet data "currency"
    let dailyChange ← pyGet data "daily_change"
    let dcValue ← pyGet dailyChange "value"
    let dcPct ← pyGet dailyChange "percentage"
    let mm ← pyGet data "market_metrics"
    let mmCap ← pyGet mm "market_cap"
    let mmPe ← pyGet mm "pe_ratio"
    let mmFwd ← pyGet mm "forward_pe"
    let mmPtb ← pyGet mm "price_to_book"
    let mmDiv ← pyGet mm "dividend_yield"
    let entVal ← pyGet data "enterprise_value"
    let profitMargins ← pyGet data "profit_margins"
    let floatShares ← pyGet data "float_shares"
    let sharesOut ← pyGet data "shares_outstanding"
    let heldIns ← pyGet data "held_percent_insiders"
    let heldInst ← pyGet data "held_percent_institutions"
    let w52 ← pyGet data "52_week"
    let w52High ← pyGet w52 "high"
    let w52Low ← pyGet w52 "low"
    let bs ← pyGet data "balance_sheet"
    let bsAssets ← pyGet bs "total_assets"
    let bsLiab ← pyGet bs "total_liabilities"
    let bsEquity ← pyGet bs "total_equity"
    let bsCash ← pyGet bs "cash_and_equivalents"
    let bookValue ← pyGet data "book_value"
    let priceToBook ← pyGet data "price_to_book"
    let revPerShare ← pyGet data "revenuePerShare"
    let roa ← pyGet data "returnOnAssets"
    let roe ← pyGet data "returnOnEquity"
    let opCashflow ← pyGet data "operatingCashflow"
    let earnGrowth ← pyGet data "earningsGrowth"
    let revGrowth ← pyGet data "revenueGrowth"
    let opMargins ← pyGet data "operatingMargins"
    let finCurrency ← pyGet data "financialCurrency"
    let peg ← pyGet data "trailingPegRatio"
    let histData ← pyGet data "historical_data"
    let hdDates ← pyGet histData "dates"
    let hdPrices ← pyGet histData "prices"
    let hdVolumes ← pyGet histData "volumes"
    return "\nStock Analysis for " ++ pyStr symbol ++ ":\n\n"
      ++ "1. Basic Information:\n"
      ++ "- Company Name: " ++ pyStr companyName ++ "\n"
      ++ "- Current Price: " ++ pyStr currentPrice ++ " " ++ pyStr currency ++ "\n"
      ++ "- Daily Change: " ++ pyStr dcValue ++ " (" ++ pyStr dcPct ++ "%)\n\n"
      ++ "2. Market Metrics:\n"
      ++ "- Market Cap: " ++ pyStr mmCap ++ "\n"
      ++ "- P/E Ratio: " ++ pyStr mmPe ++ "\n"
      ++ "- Forward P/E: " ++ pyStr mmFwd ++ "\n"
      ++ "- Price to Book: " ++ pyStr mmPtb ++ "\n"
      ++ "- Dividend Yield: " ++ pyStr mmDiv ++ "\n"
      ++ "- Enterprise Value: " ++ pyStr entVal ++ "\n"
      ++ "- Profit Margins: " ++ pyStr profitMargins ++ "\n"
      ++ "- Float Shares: " ++ pyStr floatShares ++ "\n"
      ++ "- Shares Outstanding: " ++ pyStr sharesOut ++ "\n"
      ++ "- Held Percent Insiders: " ++ pyStr heldIns ++ "\n"
      ++ "- Held Percent Institutions: " ++ pyStr heldInst ++ "\n\n"
      ++ "3. Trading Range:\n"
      ++ "- 52-Week High: " ++ pyStr w52High ++ "\n"
      ++ "- 52-Week Low: " ++ pyStr w52Low ++ "\n\n"
      ++ "4. Balance Sheet Highlights:\n"
      ++ "- Total Assets: " ++ pyStr bsAssets ++ "\n"
      ++ "- Total Liabilities: " ++ pyStr bsLiab ++ "\n"
      ++ "- Total Equity: " ++ pyStr bsEquity ++ "\n"
      ++ "- Cash and Equivalents: " ++ pyStr bsCash ++ "\n"
      ++ "- Book Value: " ++ pyStr bookValue ++ "\n"
      ++ "- Price to Book: " ++ pyStr priceToBook ++ "\n\n"
      ++ "5. Additional Metrics:\n"
      ++ "- Revenue Per Share: " ++ pyStr revPerShare ++ "\n"
      ++ "- Return on Assets: " ++ pyStr roa ++ "\n"
      ++ "- Return on Equity: " ++ pyStr roe ++ "\n"
      ++ "- Operating Cashflow: " ++ pyStr opCashflow ++ "\n"
      ++ "- Earnings Growth: " ++ pyStr earnGrowth ++ "\n"
      ++ "- Revenue Growth: " ++ pyStr revGrowth ++ "\n"
      ++ "- Operating Margins: " ++ pyStr opMargins ++ "\n"
      ++ "- Financial Currency: " ++ pyStr finCurrency ++ "\n"
      ++ "- Trailing PEG Ratio: " ++ pyStr peg ++ "\n\n"
      ++ "6. Historical Data:\n"
      ++ "- Dates: " ++ pyStr hdDates ++ "\n"
      ++ "- Prices: " ++ pyStr hdPrices ++ "\n"
      ++ "- Volumes: " ++ pyStr hdVolumes ++ "\n"

/-! ### chat.py: handlers -/

/-- An error reply `{status: {code, message}, data: None}`. -/
def respErr (code : Nat) (msg : String) : Response :=
  Response.mk code (Val.str msg) Option.none Option.none

/-- `get_stock_data(tickers)` as the fetch handler sees it, with the
upstream yfinance oracle supplying the three component results for the
query string. -/
def fetchResult (up : String → Upstream) (q : String) : Val :=
  get_stock_data q (up q).info (up q).hist (up q).bal

/-- The `/get_ticker_data` handler of `src/chat.py`.  Missing or empty
params give 400; a fetcher-reported error gives 400 with the passed
message and no store write; success overwrites the session entry wholly
and answers 200 with the storage-verification debug info. -/
def get_ticker_data (st : Store) (session_id tickers : Option String)
    (up : String → Upstream) : Store × Response :=
  if !truthyOStr session_id || !truthyOStr tickers then
    (st, respErr 400 "Session ID and tickers are required")
  else
    let sid := session_id.getD ""
    let tq := tickers.getD ""
    let stock_data := fetchResult up tq
    match stock_data with
    | Val.dict kvs =>
      if truthy (dgetD kvs "error" (Val.bool false)) then
        (st, Response.mk 400 (dgetD kvs "message" (Val.str "Error fetching stock data"))
          Option.none Option.none)
      else
        let entry := Val.dict [("tickers", Val.str tq), ("data", stock_data)]
        let ts := aset sid entry st.ticker_store
        (Store.mk st.chat_store ts,
         Response.mk 200 (Val.str "Success")
           (some (some (alookup sid ts).isSome, akeys ts)) (some stock_data))
    | _ =>
      -- unreachable: get_stock_data always returns a dict; models the
      -- outer try/except of the handler
      (st, respErr 500 "Server error")

/-- The `/cleanup_session` handler of `src/chat.py`: pops both stores when
the id is truthy, always replies 200 with the remaining session ids. -/
def cleanup_session (st : Store) (session_id : Option String) : Store × Response :=
  if truthyOStr session_id then
    let sid := session_id.getD ""
    let st2 := Store.mk (aerase sid st.chat_store) (aerase sid st.ticker_store)
    (st2, Response.mk 200 (Val.str "Session cleaned up")
      (some (Option.none, akeys st2.ticker_store)) Option.none)
  else
    (st, Response.mk 200 (Val.str "Session cleaned up")
      (some (Option.none, akeys st.ticker_store)) Option.none)

/-- `with_message_history.invoke` (RunnableWithMessageHistory): the
session history entry is created if absent (`get_session_history`), the
model sees the stored transcript plus the composed input, and only on
success are the human and AI turns appended to the store. -/
def invokeWithHistory (st : Store) (sid : String) (inp : String) (llm : LLM) :
    Store × Except String String :=
  let hist := (alookup sid st.chat_store).getD []
  let ensured := if (alookup sid st.chat_store).isSome then st.chat_store
    else aset sid [] st.chat_store
  (Store.mk
    (match llm hist inp with
     | Except.error _ => ensured
     | Except.ok reply => aset sid (hist ++ [Turn.user inp, Turn.assistant reply]) ensured)
    st.ticker_store,
   llm hist inp)

/-- The fixed instruction preamble of the chat handler, with the stored
ticker query string and the formatted analysis interpolated. -/
def contextText (tickers analysis : String) : String :=
  "\n        You are a helpful financial analyst. You are analyzing stock data for "
    ++ tickers ++ ".\n        \n        Here is the current analysis:\n        "
    ++ analysis
    ++ "\n        \n        Previous conversation context is maintained automatically.\n"
    ++ "        Please provide insights based on the user\x27s question, using the data provided.\n"
    ++ "        If any data is missing or invalid, acknowledge this and work with the available information.\n        "

/-- The `/chat` handler of `src/chat.py`.  Validation gives 400; a
missing session snapshot gives 400 before the LLM is touched; any raised
error inside the body (malformed stored value, formatting failure, list
index, LLM failure) is caught and answered as 500 with `data: None`;
success appends the two turns (via the runnable) and answers 200 with the
reply and the stored stock data. -/
def chat (st : Store) (session_id : Option String)
    (messages : Option (List String)) (llm : LLM) : Store × Response :=
  if !truthyOStr session_id || !truthyOList messages then
    (st, respErr 400 "Session ID and messages are required")
  else
    let sid := session_id.getD ""
    let msgs := messages.getD []
    match alookup sid st.ticker_store with
    | Option.none =>
      (st, respErr 400 "No ticker data found for this session. Please call /get_ticker_data first")
    | some ticker_data =>
      match pyGet ticker_data "data" with
      | Except.error e => (st, respErr 500 ("Error processing chat request: " ++ e))
      | Except.ok stock_data =>
        match format_analysis_for_chat stock_data with
        | Except.error e => (st, respErr 500 ("Error processing chat request: " ++ e))
        | Except.ok analysis =>
          match pyGet ticker_data "tickers" with
          | Except.error e => (st, respErr 500 ("Error processing chat request: " ++ e))
          | Except.ok tickersVal =>
            let context := contextText (pyStr tickersVal) analysis
            match msgs.getLast? with
            | Option.none =>
              (st, respErr 500 "Error processing chat request: list index out of range")
            | some lastMsg =>
              let inp := context ++ "\n\nUser: " ++ lastMsg
              match invokeWithHistory st sid inp llm with
              | (st2, Except.error e) =>
                (st2, respErr 500 ("Error processing chat request: " ++ e))
              | (st2, Except.ok reply) =>
                (st2, Response.mk 200 (Val.str "Success") Option.none
                  (some (Val.dict [("response", Val.str reply), ("stock_data", stock_data)])))

/-! ### Concrete sample inputs used by witnesses -/

/-- A fresh process state: both stores empty. -/
def emptyStore : Store := Store.mk [] []

/-- An always-answering LLM collaborator. -/
def llmYes : LLM := fun _ _ => Except.ok "Here is my analysis."

/-- An always-failing LLM collaborator. -/
def llmFail : LLM := fun _ _ => Except.error "timeout"

/-- A two-day sample history window. -/
def histTwoDays : List HistRow :=
  [HistRow.mk "2024-01-02" 10 100, HistRow.mk "2024-01-03" 12 120]

/-- A healthy upstream whose info dict has only a currency (so every
optional numeric field is absent). -/
def upOk : String → Upstream := fun _ =>
  Upstream.mk (FetchComp.ok [("currency", Val.str "USD")])
    (FetchComp.ok histTwoDays) (FetchComp.ok [])

/-- An upstream whose info component fails. -/
def upBad : String → Upstream := fun _ =>
  Upstream.mk (FetchComp.err "boom") (FetchComp.ok histTwoDays) (FetchComp.ok [])

/-! ### Claims -/

/-- C1: a chat request for a session with no stored snapshot (never
fetched, or cleaned up) returns the 400 no-ticker-data response with null
data, modifies no state, and never invokes the LLM collaborator (the
outcome is the same for every collaborator). -/
theorem c1_chat_without_snapshot_rejected (st : Store) (sid : String)
    (msgs : List String) (llm llm₂ : LLM)
    (hsid : sid ≠ "") (hmsgs : msgs ≠ [])
    (hsnap : alookup sid st.ticker_store = Option.none) :
    chat st (some sid) (some msgs) llm =
      (st, respErr 400 "No ticker data found for this session. Please call /get_ticker_data first")
    ∧ chat st (some sid) (some msgs) llm = chat st (some sid) (some msgs) llm₂ := by
  have h1 : truthyOStr (some sid) = true := by simp [truthyOStr, hsid]
  have h2 : truthyOList (some msgs) = true := by simp [truthyOList, hmsgs]
  constructor <;> simp [chat, h1, h2, hsnap]

theorem c1_witness :
    chat emptyStore (some "s1") (some ["hi"]) llmYes =
      (emptyStore, respErr 400 "No ticker data found for this session. Please call /get_ticker_data first")
    ∧ chat emptyStore (some "s1") (some ["hi"]) llmYes
        = chat emptyStore (some "s1") (some ["hi"]) llmFail :=
  c1_chat_without_snapshot_rejected emptyStore "s1" ["hi"] llmYes llmFail
    (by decide) (by decide) rfl

/-- C7: cleanup is idempotent and total: for every (non-empty) session
identifier it removes both the snapshot and the transcript, returns 200
even when the session does not exist, and a second cleanup returns the
very same state and response. -/
theorem c7_cleanup_idempotent (st : Store) (s : String) (hs : s ≠ "") :
    (cleanup_session st (some s)).2.code = 200
    ∧ alookup s (cleanup_session st (some s)).1.ticker_store = Option.none
    ∧ alookup s (cleanup_session st (some s)).1.chat_store = Option.none
    ∧ cleanup_session (cleanup_session st (some s)).1 (some s) = cleanup_session st (some s) := by
  have hT : truthyOStr (some s) = true := by simp [truthyOStr, hs]
  refine ⟨?_, ?_, ?_, ?_⟩
  · simp [cleanup_session, hT]
  · simp [cleanup_session, hT, alookup_aerase_self]
  · simp [cleanup_session, hT, alookup_aerase_self]
  · simp [cleanup_session, hT, aerase_aerase]

theorem c7_witness :
    (cleanup_session emptyStore (some "gone")).2.code = 200
    ∧ alookup "gone" (cleanup_session emptyStore (some "gone")).1.ticker_store = Option.none
    ∧ alookup "gone" (cleanup_session emptyStore (some "gone")).1.chat_store = Option.none
    ∧ cleanup_session (cleanup_session emptyStore (some "gone")).1 (some "gone")
        = cleanup_session emptyStore (some "gone") :=
  c7_cleanup_idempotent emptyStore "gone" (by decide)

/-- C9: only the last element of the messages list reaches the prompt:
two chat requests whose (non-empty) message lists agree on their last
element behave identically, state and response alike. -/
theorem c9_only_last_message_used (st : Store) (sid : Option String)
    (m₁ m₂ : List String) (llm : LLM) (h₁ : m₁ ≠ []) (h₂ : m₂ ≠ [])
    (hlast : m₁.getLast? = m₂.getLast?) :
    chat st sid (some m₁) llm = chat st sid (some m₂) llm := by
  have t₁ : truthyOList (some m₁) = true := by simp [truthyOList, h₁]
  have t₂ : truthyOList (some m₂) = true := by simp [truthyOList, h₂]
  simp only [chat, t₁, t₂, Option.getD_some]
  rw [hlast]

theorem c9_witness :
    chat emptyStore (some "s1") (some ["a", "b", "tail"]) llmYes
      = chat emptyStore (some "s1") (some ["tail"]) llmYes :=
  c9_only_last_message_used emptyStore (some "s1") ["a", "b", "tail"] ["tail"]
    llmYes (by decide) (by decide) (by decide)

/-- C10: a present-but-empty messages list fails the truthiness
validation and is answered 400 before any indexing; and whenever the
validation passes, the list is non-empty, so the model of `messages[-1]`
(`List.getLast?`) is defined on the success path. -/
theorem c10_empty_messages_rejected (st : Store) (sid : Option String)
    (msgs : List String) (llm : LLM) :
    (truthyOList (some msgs) = false →
      chat st sid (some msgs) llm = (st, respErr 400 "Session ID and messages are required"))
    ∧ (truthyOList (some msgs) = true → (msgs.getLast?).isSome = true) := by
  constructor
  · intro h
    simp [chat, h]
  · intro h
    have : msgs ≠ [] := by
      intro hnil
      simp [truthyOList, hnil] at h
    simpa [List.getLast?_isSome] using this

theorem c10_witness :
    chat emptyStore (some "s1") (some ([] : List String)) llmYes
      = (emptyStore, respErr 400 "Session ID and messages are required")
    ∧ ((["hi"] : List String).getLast?).isSome = true :=
  ⟨(c10_empty_messages_rejected emptyStore (some "s1") [] llmYes).1 rfl,
   (c10_empty_messages_rejected emptyStore (some "s1") ["hi"] llmYes).2 rfl⟩

/-- A fetch result the handler accepts: a dict whose `error` entry is
falsy. -/
def isSuccessDict : Val → Bool
  | Val.dict kvs => !truthy (dgetD kvs "error" (Val.bool false))
  | _ => false

/-- C2: a failing fetch on a session that already holds a valid snapshot
returns 400 with the fetcher-reported message and null data, and mutates
nothing: the stored snapshot (with its ticker query string) stays exactly
what `ticker_store` returned before. -/
theorem c2_failed_fetch_retains_snapshot (st : Store) (s q : String)
    (snap : Val) (up : String → Upstream) (kvs : List (String × Val))
    (hs : s ≠ "") (hq : q ≠ "")
    (hsnap : alookup s st.ticker_store = some snap)
    (hdict : fetchResult up q = Val.dict kvs)
    (herr : truthy (dgetD kvs "error" (Val.bool false)) = true) :
    get_ticker_data st (some s) (some q) up
      = (st, Response.mk 400 (dgetD kvs "message" (Val.str "Error fetching stock data"))
          Option.none Option.none)
    ∧ alookup s (get_ticker_data st (some s) (some q) up).1.ticker_store = some snap := by
  have h1 : truthyOStr (some s) = true := by simp [truthyOStr, hs]
  have h2 : truthyOStr (some q) = true := by simp [truthyOStr, hq]
  have hmain : get_ticker_data st (some s) (some q) up
      = (st, Response.mk 400 (dgetD kvs "message" (Val.str "Error fetching stock data"))
          Option.none Option.none) := by
    simp [get_ticker_data, h1, h2, hdict, herr]
  exact ⟨hmain, by rw [hmain]; exact hsnap⟩

theorem c2_witness :
    (∃ kvs, fetchResult upBad "BBB" = Val.dict kvs
      ∧ truthy (dgetD kvs "error" (Val.bool false)) = true
      ∧ get_ticker_data (get_ticker_data emptyStore (some "s1") (some "AAA") upOk).1
          (some "s1") (some "BBB") upBad
        = ((get_ticker_data emptyStore (some "s1") (some "AAA") upOk).1,
           Response.mk 400 (dgetD kvs "message" (Val.str "Error fetching stock data"))
             Option.none Option.none)
      ∧ alookup "s1" (get_ticker_data (get_ticker_data emptyStore (some "s1") (some "AAA") upOk).1
            (some "s1") (some "BBB") upBad).1.ticker_store
          = some (Val.dict [("tickers", Val.str "AAA"), ("data", fetchResult upOk "AAA")])) := by
  refine ⟨[("error", Val.bool true),
    ("message", Val.str "Error fetching some data components"),
    ("details", Val.dict [("info", Val.str "boom"), ("history", Val.str ""),
      ("balance", Val.str "")])], rfl, rfl, ?_, ?_⟩
  · exact (c2_failed_fetch_retains_snapshot
      (get_ticker_data emptyStore (some "s1") (some "AAA") upOk).1 "s1" "BBB"
      (Val.dict [("tickers", Val.str "AAA"), ("data", fetchResult upOk "AAA")]) upBad _
      (by decide) (by decide) rfl rfl rfl).1
  · exact (c2_failed_fetch_retains_snapshot
      (get_ticker_data emptyStore (some "s1") (some "AAA") upOk).1 "s1" "BBB"
      (Val.dict [("tickers", Val.str "AAA"), ("data", fetchResult upOk "AAA")]) upBad _
      (by decide) (by decide) rfl rfl rfl).2

/-- C3: two successive successful fetches on one session: the second
wholly replaces the stored entry, which afterwards is exactly the dict
built from the second query and its fetch result, independent of the
first fetch. -/
theorem c3_refetch_overwrites_wholly (st : Store) (s qA qB : String)
    (upA upB : String → Upstream)
    (hs : s ≠ "") (hqA : qA ≠ "") (hqB : qB ≠ "")
    (hA : isSuccessDict (fetchResult upA qA) = true)
    (hB : isSuccessDict (fetchResult upB qB) = true) :
    alookup s (get_ticker_data (get_ticker_data st (some s) (some qA) upA).1
        (some s) (some qB) upB).1.ticker_store
      = some (Val.dict [("tickers", Val.str qB), ("data", fetchResult upB qB)]) := by
  have h1 : truthyOStr (some s) = true := by simp [truthyOStr, hs]
  have h2 : truthyOStr (some qA) = true := by simp [truthyOStr, hqA]
  have h3 : truthyOStr (some qB) = true := by simp [truthyOStr, hqB]
  rcases hfA : fetchResult upA qA with _ | _ | _ | _ | _ | _ | kvsA <;>
    rw [hfA] at hA <;> simp [isSuccessDict] at hA
  rcases hfB : fetchResult upB qB with _ | _ | _ | _ | _ | _ | kvsB <;>
    rw [hfB] at hB <;> simp [isSuccessDict] at hB
  simp [get_ticker_data, h1, h2, h3, hfA, hfB, hA, hB, alookup_aset_self]

theorem c3_witness :
    alookup "s1" (get_ticker_data (get_ticker_data emptyStore (some "s1") (some "AAA") upOk).1
        (some "s1") (some "BBB") upOk).1.ticker_store
      = some (Val.dict [("tickers", Val.str "BBB"), ("data", fetchResult upOk "BBB")]) :=
  c3_refetch_overwrites_wholly emptyStore "s1" "AAA" "BBB" upOk upOk
    (by decide) (by decide) (by decide) rfl rfl

/-- C4: with a snapshot stored, a failing LLM collaborator makes the chat
endpoint answer 500 with null data while committing nothing: the ticker
store is untouched and the session transcript gains no turn. -/
theorem c4_llm_failure_commits_nothing (st : Store) (sid : String)
    (msgs : List String) (tq d : Val) (llm : LLM) (e a : String)
    (hsid : sid ≠ "") (hmsgs : msgs ≠ [])
    (hsnap : alookup sid st.ticker_store = some (Val.dict [("tickers", tq), ("data", d)]))
    (hfmt : format_analysis_for_chat d = Except.ok a)
    (hllm : ∀ h i, llm h i = Except.error e) :
    (chat st (some sid) (some msgs) llm).2
        = respErr 500 ("Error processing chat request: " ++ e)
    ∧ (chat st (some sid) (some msgs) llm).1.ticker_store = st.ticker_store
    ∧ (alookup sid (chat st (some sid) (some msgs) llm).1.chat_store).getD []
        = (alookup sid st.chat_store).getD [] := by
  have h1 : truthyOStr (some sid) = true := by simp [truthyOStr, hsid]
  have h2 : truthyOList (some msgs) = true := by simp [truthyOList, hmsgs]
  have hsome : (msgs.getLast?).isSome = true := by
    rw [List.getLast?_isSome]
    exact hmsgs
  obtain ⟨lastMsg, hlast⟩ := Option.isSome_iff_exists.mp hsome
  have hcore : ∀ st₂ : Store, invokeWithHistory st₂ sid
      (contextText (pyStr tq) a ++ "\n\nUser: " ++ lastMsg) llm
      = (Store.mk (if (alookup sid st₂.chat_store).isSome then st₂.chat_store
          else aset sid [] st₂.chat_store) st₂.ticker_store, Except.error e) := by
    intro st₂
    simp [invokeWithHistory, hllm]
  have hdata : pyGet (Val.dict [("tickers", tq), ("data", d)]) "data" = Except.ok d := by
    simp [pyGet, alookup]
  have htick : pyGet (Val.dict [("tickers", tq), ("data", d)]) "tickers" = Except.ok tq := by
    simp [pyGet, alookup]
  have hchat : chat st (some sid) (some msgs) llm
      = (Store.mk (if (alookup sid st.chat_store).isSome then st.chat_store
          else aset sid [] st.chat_store) st.ticker_store,
         respErr 500 ("Error processing chat request: " ++ e)) := by
    simp [chat, h1, h2, hsnap, hdata, hfmt, htick, hlast, hcore, respErr]
  rw [hchat]
  refine ⟨rfl, rfl, ?_⟩
  by_cases hcs : (alookup sid st.chat_store).isSome
  · simp [hcs]
  · simp [hcs, alookup_aset_self, Option.not_isSome_iff_eq_none.mp hcs]

/-- A state where session `s1` already holds the snapshot fetched for
query `AAA`. -/
def storeWithSnap : Store :=
  Store.mk [] [("s1", Val.dict [("tickers", Val.str "AAA"), ("data", fetchResult upOk "AAA")])]

/-- The analysis text of the sample snapshot (total by construction). -/
def sampleAnalysis : String :=
  match format_analysis_for_chat (fetchResult upOk "AAA") with
  | Except.ok s => s
  | Except.error s => s

theorem c4_witness :
    (chat storeWithSnap (some "s1") (some ["What is the price?"]) llmFail).2
        = respErr 500 ("Error processing chat request: " ++ "timeout")
    ∧ (chat storeWithSnap (some "s1") (some ["What is the price?"]) llmFail).1.ticker_store
        = storeWithSnap.ticker_store
    ∧ (alookup "s1" (chat storeWithSnap (some "s1") (some ["What is the price?"]) llmFail).1.chat_store).getD []
        = (alookup "s1" storeWithSnap.chat_store).getD [] :=
  c4_llm_failure_commits_nothing storeWithSnap "s1" ["What is the price?"]
    (Val.str "AAA") (fetchResult upOk "AAA") llmFail "timeout" sampleAnalysis
    (by decide) (by decide) rfl rfl (fun _ _ => rfl)

/-- C5: evaluation of the code on an upstream whose info dict has no
`marketCap` and no `dividendYield`: the snapshot represents the absent
fields at top level as the sentinel `0`, not as absent — while the nested
`market_metrics` block renders the same upstream fields as `None`.  The
claim (absence is never coerced to `0`) is therefore violated by the
code; the spec itself flags the `0` defaults as a latent defect. -/
theorem c5_absent_fields_coerced_to_zero :
    (pyGet (fetchResult upOk "MSFT") "data").bind (fun d => pyGet d "market_cap")
      = Except.ok (Val.int 0)
    ∧ (pyGet (fetchResult upOk "MSFT") "data").bind (fun d => pyGet d "dividend_yield")
      = Except.ok (Val.int 0)
    ∧ (pyGet (fetchResult upOk "MSFT") "data").bind
        (fun d => (pyGet d "market_metrics").bind (fun mm => pyGet mm "market_cap"))
      = Except.ok Val.null
    ∧ (pyGet (fetchResult upOk "MSFT") "data").bind
        (fun d => (pyGet d "market_metrics").bind (fun mm => pyGet mm "dividend_yield"))
      = Except.ok Val.null :=
  ⟨rfl, rfl, rfl, rfl⟩

/-- The formatter succeeds on every success-shaped result dict. -/
theorem format_ok_success (info : Info) (bal : BalanceCols) (rows : List HistRow)
    (latest change pct : Option ℚ) (offs : List Val) :
    isOkResult (format_analysis_for_chat (Val.dict [("error", Val.bool false),
      ("data", dataDict info bal rows latest change pct offs)])) = true := rfl

/-- C6: `format_analysis_for_chat` is deterministic (equal inputs give
equal strings) and total on snapshots: on every result a successful
`get_stock_data` run can produce (components fetched, history not the
raising one-row case, officers iterable) it returns a string instead of
raising. -/
theorem c6_format_total_and_deterministic (t : String) (info : Info)
    (rows : List HistRow) (bal : BalanceCols) (offs : List Val)
    (hrows : rows.length ≠ 1)
    (hoff : officersBuild (dgetD info "companyOfficers" (Val.list [])) = some offs) :
    (∀ v w : Val, v = w → format_analysis_for_chat v = format_analysis_for_chat w)
    ∧ isOkResult (format_analysis_for_chat
        (get_stock_data t (FetchComp.ok info) (FetchComp.ok rows) (FetchComp.ok bal))) = true := by
  refine ⟨fun v w h => by rw [h], ?_⟩
  have hbuild : ∀ latest change pct : Option ℚ, analyzeBuild t info rows bal latest change pct
      = Val.dict [("error", Val.bool false),
          ("data", dataDict info bal rows latest change pct offs)] := by
    intro latest change pct
    simp [analyzeBuild, hoff]
  rcases hrev : rows.reverse with _ | ⟨a, rest⟩
  · simp [get_stock_data, analyzeData, hrev, hbuild, format_ok_success]
  · rcases rest with _ | ⟨b, rest₂⟩
    · exfalso
      apply hrows
      have hlen : rows.reverse.length = 1 := by rw [hrev]; rfl
      simpa using hlen
    · simp [get_stock_data, analyzeData, hrev, hbuild, format_ok_success]

theorem c6_witness :
    (∀ v w : Val, v = w → format_analysis_for_chat v = format_analysis_for_chat w)
    ∧ isOkResult (format_analysis_for_chat
        (get_stock_data "AAPL" (FetchComp.ok [("currency", Val.str "USD")])
          (FetchComp.ok histTwoDays) (FetchComp.ok []))) = true :=
  c6_format_total_and_deterministic "AAPL" [("currency", Val.str "USD")]
    histTwoDays [] [] (by decide) rfl

theorem alookup_aset_of_ne {k k₂ : String} (h : k₂ ≠ k) (v : α)
    (l : List (String × α)) : alookup k₂ (aset k v l) = alookup k₂ l :=
  alookup_aset_ne k k₂ v l h

theorem alookup_aerase_of_ne {k k₂ : String} (h : k₂ ≠ k)
    (l : List (String × α)) : alookup k₂ (aerase k l) = alookup k₂ l :=
  alookup_aerase_ne k k₂ l h

/-- C8 counterexample: two states that agree on everything about session
`s1` and differ only in whether `s2` exists; the very same cleanup
request on `s1` answers different payloads (its `debug_info` lists every
active session id), so the result of an operation keyed by `s1` does
depend on `s2`, refuting the claim as stated. -/
theorem c8_counterexample :
    ¬ ((cleanup_session (Store.mk [] [("s1", Val.str "d1")]) (some "s1")).2.debug
        = (cleanup_session (Store.mk [] [("s1", Val.str "d1"), ("s2", Val.str "d2")])
            (some "s1")).2.debug) := by
  decide

/-- C8 (amended): the frame part of the claim holds — a fetch, chat or
cleanup keyed by `s1` never mutates the snapshot or transcript of `s2` —
and the chat response depends only on the entries of `s1`; but (per the
counterexample) the fetch and cleanup responses embed the list of all
session ids in their debug info, so only the chat response is
state-isolated. -/
theorem c8_frame_and_chat_isolation (st st₂ : Store) (s₁ s₂ q : String)
    (up : String → Upstream) (msgs : Option (List String)) (llm : LLM)
    (hne : s₂ ≠ s₁) :
    (alookup s₂ (get_ticker_data st (some s₁) (some q) up).1.ticker_store
        = alookup s₂ st.ticker_store
      ∧ (get_ticker_data st (some s₁) (some q) up).1.chat_store = st.chat_store)
    ∧ (alookup s₂ (chat st (some s₁) msgs llm).1.ticker_store = alookup s₂ st.ticker_store
      ∧ alookup s₂ (chat st (some s₁) msgs llm).1.chat_store = alookup s₂ st.chat_store)
    ∧ (alookup s₂ (cleanup_session st (some s₁)).1.ticker_store = alookup s₂ st.ticker_store
      ∧ alookup s₂ (cleanup_session st (some s₁)).1.chat_store = alookup s₂ st.chat_store)
    ∧ (alookup s₁ st₂.ticker_store = alookup s₁ st.ticker_store →
       alookup s₁ st₂.chat_store = alookup s₁ st.chat_store →
       (chat st₂ (some s₁) msgs llm).2 = (chat st (some s₁) msgs llm).2) := by
  refine ⟨?_, ?_, ?_, ?_⟩
  · -- fetch frame
    unfold get_ticker_data
    by_cases hv : (!truthyOStr (some s₁) || !truthyOStr (some q)) = true
    · simp [hv]
    · simp only [hv, Bool.false_eq_true, if_false]
      rcases hfr : fetchResult up ((some q).getD "") with _ | _ | _ | _ | _ | _ | kvs <;>
        simp [hfr]
      by_cases herr : truthy (dgetD kvs "error" (Val.bool false)) = true <;>
        simp [herr, alookup_aset_of_ne hne]
  · -- chat frame
    unfold chat
    by_cases hv : (!truthyOStr (some s₁) || !truthyOList msgs) = true
    · simp [hv]
    · simp only [hv, Bool.false_eq_true, if_false]
      rcases htd : alookup ((some s₁).getD "") st.ticker_store with _ | td <;> simp [htd]
      rcases hd : pyGet td "data" with e | d <;> simp [hd]
      rcases hf : format_analysis_for_chat d with e | a <;> simp [hf]
      rcases ht : pyGet td "tickers" with e | tv <;> simp [ht]
      rcases hl : msgs.getD [] |>.getLast? with _ | lastMsg <;> simp [hl]
      simp only [invokeWithHistory]
      rcases hr : llm ((alookup s₁ st.chat_store).getD [])
          (contextText (pyStr tv) a ++ "\n\nUser: " ++ lastMsg) with e | r <;>
        by_cases hc : (alookup s₁ st.chat_store).isSome <;>
        simp [hr, hc, alookup_aset_of_ne hne]
  · -- cleanup frame
    unfold cleanup_session
    by_cases hv : truthyOStr (some s₁) = true <;>
      simp [hv, alookup_aerase_of_ne hne]
  · -- chat response reads only the s1 entries
    intro ht hc
    unfold chat
    by_cases hv : (!truthyOStr (some s₁) || !truthyOList msgs) = true
    · simp [hv]
    · simp only [hv, Bool.false_eq_true, if_false, Option.getD_some]
      rw [ht]
      rcases htd : alookup s₁ st.ticker_store with _ | td <;> simp [htd]
      rcases hd : pyGet td "data" with e | d <;> simp [hd]
      rcases hf : format_analysis_for_chat d with e | a <;> simp [hf]
      rcases ht₂ : pyGet td "tickers" with e | tv <;> simp [ht₂]
      rcases hl : msgs.getD [] |>.getLast? with _ | lastMsg <;> simp [hl]
      simp only [invokeWithHistory, hc]
      rcases hr : llm ((alookup s₁ st.chat_store).getD [])
          (contextText (pyStr tv) a ++ "\n\nUser: " ++ lastMsg) with e | r <;> simp [hr]

theorem c8_witness :
    (alookup "s2" (get_ticker_data storeWithSnap (some "s1") (some "AAA") upOk).1.ticker_store
        = alookup "s2" storeWithSnap.ticker_store
      ∧ (get_ticker_data storeWithSnap (some "s1") (some "AAA") upOk).1.chat_store
          = storeWithSnap.chat_store)
    ∧ (alookup "s2" (chat storeWithSnap (some "s1") (some ["hi"]) llmYes).1.ticker_store
        = alookup "s2" storeWithSnap.ticker_store
      ∧ alookup "s2" (chat storeWithSnap (some "s1") (some ["hi"]) llmYes).1.chat_store
          = alookup "s2" storeWithSnap.chat_store)
    ∧ (alookup "s2" (cleanup_session storeWithSnap (some "s1")).1.ticker_store
        = alookup "s2" storeWithSnap.ticker_store
      ∧ alookup "s2" (cleanup_session storeWithSnap (some "s1")).1.chat_store
          = alookup "s2" storeWithSnap.chat_store)
    ∧ (chat (Store.mk [] (("s0", Val.str "x") :: storeWithSnap.ticker_store))
          (some "s1") (some ["hi"]) llmYes).2
        = (chat storeWithSnap (some "s1") (some ["hi"]) llmYes).2 := by
  have h := c8_frame_and_chat_isolation storeWithSnap
    (Store.mk [] (("s0", Val.str "x") :: storeWithSnap.ticker_store))
    "s1" "s2" "AAA" upOk (some ["hi"]) llmYes (by decide)
  exact ⟨h.1, h.2.1, h.2.2.1, h.2.2.2 rfl rfl⟩
